import Mathlib

/-!
Verification of the smart-websearch MCP server (`mcp_websearch_server.py`)
against its natural-language specification.

The server handles JSON-RPC-like requests over a message-oriented
connection.  The embedding models parsed JSON values, the tool dispatcher
(`call_tool`), the search adapter (`search_with_claude`), and the
per-connection message loop (`handle_websocket`), translated directly from
the Python source.
-/

namespace McpWebsearch

/-- A parsed JSON value, as produced by `json.loads`.  Numbers are modelled
as integers: no claim involves fractional numeric values.  Objects are
association lists with (as produced by `json.loads` on ordinary input)
unique keys. -/
inductive Json where
  | null
  | bool (b : Bool)
  | num (n : Int)
  | str (s : String)
  | arr (xs : List Json)
  | obj (kvs : List (String × Json))

/-- Key lookup in a JSON object; `none` on non-objects or absent keys. -/
def Json.find? : Json → String → Option Json
  | .obj kvs, k => kvs.lookup k
  | _, _ => none

/-- Python `dict.get(k)`: the value under `k`, or `None` when absent. -/
def Json.get (j : Json) (k : String) : Json := (j.find? k).getD .null

/-- Python `dict.get(k, d)`: the value under `k`, or `d` when absent. -/
def Json.getOr (j : Json) (k : String) (d : Json) : Json := (j.find? k).getD d

/-- Python `isinstance(·, dict)`. -/
def Json.isDict : Json → Bool
  | .obj _ => true
  | _ => false

/-- Python `k in ·` on a dict. -/
def Json.hasKey (j : Json) (k : String) : Bool := (j.find? k).isSome

/-- Python `· == s` where `s` is a string literal: equality is `False`
whenever the left value is not a string. -/
def Json.eqStr (j : Json) (s : String) : Bool :=
  match j with
  | .str t => t == s
  | _ => false

mutual
/-- Python `repr()` of a parsed-JSON value, used for values nested inside
containers rendered by the source's f-strings.  Quote-escaping inside
string payloads is not modelled (no claim depends on the rendered text of
a nested string). -/
def pyRepr : Json → String
  | .null => "None"
  | .bool true => "True"
  | .bool false => "False"
  | .num n => toString n
  | .str s => "'" ++ s ++ "'"
  | .arr xs => "[" ++ String.intercalate ", " (pyReprList xs) ++ "]"
  | .obj kvs => "\x7b" ++ String.intercalate ", " (pyReprObj kvs) ++ "\x7d"

/-- `repr()` of each element of a Python list. -/
def pyReprList : List Json → List String
  | [] => []
  | x :: xs => pyRepr x :: pyReprList xs

/-- `repr()` of each `'key': value` entry of a Python dict. -/
def pyReprObj : List (String × Json) → List String
  | [] => []
  | (k, v) :: kvs => ("'" ++ k ++ "': " ++ pyRepr v) :: pyReprObj kvs
end

/-- Python `str()` of a parsed-JSON value, as interpolated by the source's
f-strings: a string renders as itself, anything else as its `repr()`. -/
def pyStr : Json → String
  | .str s => s
  | j => pyRepr j

/-- Python's type name for a parsed-JSON value, as it appears in the
`AttributeError` message raised by `x.get(...)` on a non-dict `x`. -/
def pyTypeName : Json → String
  | .null => "NoneType"
  | .bool _ => "bool"
  | .num _ => "int"
  | .str _ => "str"
  | .arr _ => "list"
  | .obj _ => "dict"

/-- `str()` of the `AttributeError` raised by Python when `.get` is called
on a non-dict value. -/
def noAttrGet (j : Json) : String :=
  "'" ++ pyTypeName j ++ "' object has no attribute 'get'"

/-! ## Search Provider Adapter (`search_with_claude`) -/

/-- One content block of the provider's response (`response.content`):
either narrative text, a tool-invocation record (with its name and input),
or a block of some other kind. -/
inductive ProviderBlock where
  | text (s : String)
  | toolUse (name : String) (input : Json)
  | other (kind : String)

/-- Outcome of the external call `client.messages.create(...)`: either a
list of content blocks, or an exception whose `str()` is the given
message.  The `try` block of `search_with_claude` can only fail at this
call (the inner `tool_use` parsing has its own `try`/`except`). -/
inductive ProviderOutcome where
  | ok (blocks : List ProviderBlock)
  | exn (msg : String)

/-- The extraction loop of `search_with_claude`: iterate over the content
blocks, appending the payload of each `text` block to `search_results`.
The `tool_use` branch only logs the provider's actual sub-query and leaves
the accumulator unchanged, as does any other block kind. -/
def extractSearchResults : List ProviderBlock → List String
  | [] => []
  | .text s :: rest => s :: extractSearchResults rest
  | .toolUse _ _ :: rest => extractSearchResults rest
  | .other _ :: rest => extractSearchResults rest

/-- `search_with_claude`, as a function of the provider-call outcome: on
success, join the extracted text payloads with newlines (or the fixed
sentinel when none were extracted); on any exception, return the fixed
failure marker followed by the exception's description. -/
def search_with_claude (outcome : ProviderOutcome) : String :=
  match outcome with
  | .ok blocks =>
    let search_results := extractSearchResults blocks
    if search_results.isEmpty then "No related search results found."
    else String.intercalate "\n" search_results
  | .exn e => "Search failed: " ++ e

/-! ## Tool Registry (`list_tools`) -/

/-- An `mcp.types.Tool`, with the fields the source populates. -/
structure Tool where
  name : String
  description : String
  inputSchema : Json

/-- `tool.dict()`: the serialized form of a tool descriptor (modelled by
the fields the source declares). -/
def Tool.dict (t : Tool) : Json :=
  .obj [("name", .str t.name), ("description", .str t.description),
        ("inputSchema", t.inputSchema)]

/-- `list_tools`: the fixed single-tool catalog. -/
def list_tools : List Tool :=
  [⟨"smart_web_search",
    "Searches the web and provides concise, insight-rich summaries from live data.",
    .obj [("type", .str "object"),
          ("properties",
            .obj [("query",
              .obj [("type", .str "string"),
                    ("description",
                      .str "The content to search, can be any question or topic")])]),
          ("required", .arr [.str "query"])]⟩]

/-! ## Request Dispatcher (`call_tool`) -/

/-- An `mcp.types.TextContent` as constructed by `call_tool`. -/
structure TextContent where
  type : String
  text : String

/-- `call_tool`, parameterized by the adapter `search` (the suspended
`search_with_claude` call, as a function of the query value it is given).
Mirrors the source: an unrecognized tool name or invalid arguments are
reported as ordinary text content; otherwise the value under `"query"` is
passed to the adapter and its result wrapped as text content. -/
def call_tool (search : Json → String) (name : Json) (arguments : Json) :
    List TextContent :=
  if !(name.eqStr "smart_web_search") then
    [⟨"text", "Unknown tool: " ++ pyStr name⟩]
  else if !arguments.isDict || !(arguments.hasKey "query") then
    [⟨"text", "Invalid arguments for smart_web_search: " ++ pyStr arguments⟩]
  else
    let query := arguments.get "query"
    [⟨"text", search query⟩]

/-! ## Connection Handler (`handle_websocket`) -/

/-- The response dict `{"jsonrpc": "2.0", "result": ..., "id": ...}`. -/
def successResp (result : Json) (rid : Json) : Json :=
  .obj [("jsonrpc", .str "2.0"), ("result", result), ("id", rid)]

/-- The response dict
`{"jsonrpc": "2.0", "error": {"code": ..., "message": ...}, "id": ...}`. -/
def errorResp (code : Int) (msg : String) (rid : Json) : Json :=
  .obj [("jsonrpc", .str "2.0"),
        ("error", .obj [("code", .num code), ("message", .str msg)]),
        ("id", rid)]

/-- The `initialize` result document. -/
def initializeResult : Json :=
  .obj [("protocolVersion", .str "1.0.0"),
        ("serverInfo", .obj [("name", .str "smart_web_search-mcp"),
                             ("version", .str "1.0.0")]),
        ("capabilities", .obj [("tools", .obj []), ("streaming", .bool true)])]

/-- The body of the `try` block for one successfully parsed message: build
the response for `request`.  `Except.error e` marks the points where the
Python raises (an `AttributeError` from `request.get` on a non-dict
request, or from `params.get` on a non-dict `params`); `e` is `str()` of
the exception. -/
def buildResponse (search : Json → String) (request : Json) :
    Except String Json :=
  match request with
  | .obj _ =>
    let method := request.get "method"
    let params := request.getOr "params" (.obj [])
    let request_id := request.get "id"
    if method.eqStr "initialize" then
      .ok (successResp initializeResult request_id)
    else if method.eqStr "tools/list" then
      .ok (successResp (.obj [("tools", .arr (list_tools.map Tool.dict))])
        request_id)
    else if method.eqStr "tools/call" then
      match params with
      | .obj _ =>
        let tool_name := params.get "name"
        let arguments := params.getOr "arguments" (.obj [])
        let results := call_tool search tool_name arguments
        .ok (successResp
          (.obj [("content", .arr (results.map fun r =>
            .obj [("type", .str "text"), ("text", .str r.text)]))])
          request_id)
      | _ => .error (noAttrGet params)
    else
      .ok (errorResp (-32601) ("Method not found: " ++ pyStr method) request_id)
  | _ => .error (noAttrGet request)

/-- One incoming transport message, after `json.loads`: either a decode
failure (with the decode error's description) or a parsed JSON value. -/
inductive Msg where
  | invalid (desc : String)
  | parsed (j : Json)

/-- The `except` block: build the `-32603` error response.  `st` is the
current binding of the `request` local — `none` iff `'request' in locals()`
is false.  When `request` is bound to a non-dict value, `request.get("id")`
raises inside the handler and the exception escapes the loop: no response
is sent and the connection terminates (third component `false`). -/
def exceptHandler (st : Option Json) (e : String) :
    Option Json × Option Json × Bool :=
  match st with
  | none => (none, some (errorResp (-32603) e .null), true)
  | some req =>
    match req with
    | .obj _ => (st, some (errorResp (-32603) e (req.get "id")), true)
    | _ => (st, none, false)

/-- One iteration of the `async for message in websocket` body.  Returns
the new binding of the `request` local, the response sent on the socket
(if any), and whether the loop continues. -/
def handleMessage (search : Json → String) (st : Option Json) (m : Msg) :
    Option Json × Option Json × Bool :=
  match m with
  | .invalid desc => exceptHandler st desc
  | .parsed j =>
    match buildResponse search j with
    | .ok resp => (some j, some resp, true)
    | .error e => exceptHandler (some j) e

/-- The connection loop over a finite message sequence, threading the
binding of the `request` local, and collecting the responses sent. -/
def runConn (search : Json → String) : Option Json → List Msg → List Json
  | _, [] => []
  | st, m :: ms =>
    match handleMessage search st m with
    | (st', resp, cont) =>
      (match resp with | some r => [r] | none => []) ++
        (if cont then runConn search st' ms else [])

/-- `handle_websocket`: process the connection's messages in order,
starting with the `request` local unbound. -/
def handle_websocket (search : Json → String) (msgs : List Msg) : List Json :=
  runConn search none msgs

/-! ## Specification-side selectors -/

/-- The narrative-text payload of a provider content block, `none` for any
other block kind (spec side: "the payloads of the text-kind blocks"). -/
def textPayload : ProviderBlock → Option String
  | .text s => some s
  | _ => none

/-- A response envelope carries exactly one of a `result` field or an
`error` field. -/
def exclusiveResultError (r : Json) : Bool :=
  ((r.find? "result").isSome && !(r.find? "error").isSome) ||
  (!(r.find? "result").isSome && (r.find? "error").isSome)

end McpWebsearch

namespace McpWebsearch

/-! ## Helper lemmas -/

lemma find?_successResp_result (r i : Json) :
    (successResp r i).find? "result" = some r := rfl

lemma find?_successResp_error (r i : Json) :
    (successResp r i).find? "error" = none := rfl

lemma find?_successResp_id (r i : Json) :
    (successResp r i).find? "id" = some i := rfl

lemma find?_errorResp_result (c : Int) (m : String) (i : Json) :
    (errorResp c m i).find? "result" = none := rfl

lemma find?_errorResp_error (c : Int) (m : String) (i : Json) :
    (errorResp c m i).find? "error" =
      some (.obj [("code", .num c), ("message", .str m)]) := rfl

lemma find?_errorResp_id (c : Int) (m : String) (i : Json) :
    (errorResp c m i).find? "id" = some i := rfl

lemma exclusive_successResp (r i : Json) :
    exclusiveResultError (successResp r i) = true := rfl

lemma exclusive_errorResp (c : Int) (m : String) (i : Json) :
    exclusiveResultError (errorResp c m i) = true := rfl

lemma Json.eqStr_true_iff (j : Json) (s : String) :
    j.eqStr s = true ↔ j = .str s := by
  cases j <;> simp [Json.eqStr]

/-- Every response the `try` block builds carries exactly one of `result`
and `error`. -/
lemma buildResponse_exclusive (search : Json → String) (j r : Json)
    (h : buildResponse search j = .ok r) : exclusiveResultError r = true := by
  cases j with
  | obj kvs =>
    simp only [buildResponse] at h
    split at h
    · cases h; exact exclusive_successResp ..
    · split at h
      · cases h; exact exclusive_successResp ..
      · split at h
        · split at h
          · cases h; exact exclusive_successResp ..
          · cases h
        · cases h; exact exclusive_errorResp ..
  | null => cases h
  | bool b => cases h
  | num n => cases h
  | str s => cases h
  | arr xs => cases h

/-- Every response the `except` block sends carries exactly one of
`result` and `error`. -/
lemma exceptHandler_exclusive (st : Option Json) (e : String) :
    ((exceptHandler st e).2.1).all exclusiveResultError = true := by
  cases st with
  | none => rfl
  | some req => cases req <;> rfl

/-- Every response one loop iteration sends carries exactly one of
`result` and `error`. -/
lemma handleMessage_exclusive (search : Json → String) (st : Option Json)
    (m : Msg) :
    ((handleMessage search st m).2.1).all exclusiveResultError = true := by
  cases m with
  | invalid desc => exact exceptHandler_exclusive st desc
  | parsed j =>
    rcases hb : buildResponse search j with e | resp
    · simp only [handleMessage, hb]
      exact exceptHandler_exclusive (some j) e
    · simp only [handleMessage, hb, Option.all_some]
      exact buildResponse_exclusive search j resp hb

/-- Exclusivity extends to every response the loop sends, from any state. -/
lemma runConn_exclusive (search : Json → String) (msgs : List Msg) :
    ∀ st : Option Json,
      (runConn search st msgs).all exclusiveResultError = true := by
  induction msgs with
  | nil => intro st; rfl
  | cons m ms ih =>
    intro st
    have hx := handleMessage_exclusive search st m
    simp only [runConn]
    rcases hm : handleMessage search st m with ⟨st', resp, cont⟩
    rw [hm] at hx
    simp only [List.all_append, Bool.and_eq_true]
    refine ⟨?_, ?_⟩
    · cases resp with
      | none => rfl
      | some r => simpa using hx
    · cases cont with
      | false => rfl
      | true => simpa using ih st'

/-- The extraction loop keeps exactly the text-kind payloads, in order. -/
lemma extractSearchResults_eq_filterMap (blocks : List ProviderBlock) :
    extractSearchResults blocks = blocks.filterMap textPayload := by
  induction blocks with
  | nil => rfl
  | cons b rest ih => cases b <;> simp [extractSearchResults, textPayload, ih]

lemma buildResponse_initialize (search : Json → String)
    (kvs : List (String × Json))
    (h : Json.get (.obj kvs) "method" = .str "initialize") :
    buildResponse search (.obj kvs) =
      .ok (successResp initializeResult (Json.get (.obj kvs) "id")) := by
  simp [buildResponse, h, Json.eqStr]

lemma buildResponse_tools_list (search : Json → String)
    (kvs : List (String × Json))
    (h : Json.get (.obj kvs) "method" = .str "tools/list") :
    buildResponse search (.obj kvs) =
      .ok (successResp (.obj [("tools", .arr (list_tools.map Tool.dict))])
        (Json.get (.obj kvs) "id")) := by
  simp [buildResponse, h, Json.eqStr]

lemma buildResponse_tools_call_obj (search : Json → String)
    (kvs pkvs : List (String × Json))
    (h : Json.get (.obj kvs) "method" = .str "tools/call")
    (hp : Json.getOr (.obj kvs) "params" (.obj []) = .obj pkvs) :
    buildResponse search (.obj kvs) =
      .ok (successResp
        (.obj [("content", .arr
          ((call_tool search (Json.get (.obj pkvs) "name")
            (Json.getOr (.obj pkvs) "arguments" (.obj []))).map fun r =>
              .obj [("type", .str "text"), ("text", .str r.text)]))])
        (Json.get (.obj kvs) "id")) := by
  simp [buildResponse, h, hp, Json.eqStr]

lemma buildResponse_tools_call_nonobj (search : Json → String)
    (kvs : List (String × Json)) (p : Json)
    (h : Json.get (.obj kvs) "method" = .str "tools/call")
    (hp : Json.getOr (.obj kvs) "params" (.obj []) = p)
    (hnd : p.isDict = false) :
    buildResponse search (.obj kvs) = .error (noAttrGet p) := by
  cases p with
  | obj pkvs => simp [Json.isDict] at hnd
  | null => simp [buildResponse, h, hp, Json.eqStr]
  | bool b => simp [buildResponse, h, hp, Json.eqStr]
  | num n => simp [buildResponse, h, hp, Json.eqStr]
  | str s => simp [buildResponse, h, hp, Json.eqStr]
  | arr xs => simp [buildResponse, h, hp, Json.eqStr]

lemma buildResponse_unknown_method (search : Json → String)
    (kvs : List (String × Json))
    (h1 : (Json.get (.obj kvs) "method").eqStr "initialize" = false)
    (h2 : (Json.get (.obj kvs) "method").eqStr "tools/list" = false)
    (h3 : (Json.get (.obj kvs) "method").eqStr "tools/call" = false) :
    buildResponse search (.obj kvs) =
      .ok (errorResp (-32601)
        ("Method not found: " ++ pyStr (Json.get (.obj kvs) "method"))
        (Json.get (.obj kvs) "id")) := by
  simp [buildResponse, h1, h2, h3]

lemma handleMessage_ok (search : Json → String) (st : Option Json)
    (j resp : Json) (h : buildResponse search j = .ok resp) :
    handleMessage search st (.parsed j) = (some j, some resp, true) := by
  simp [handleMessage, h]

lemma handleMessage_error_obj (search : Json → String) (st : Option Json)
    (kvs : List (String × Json)) (e : String)
    (h : buildResponse search (.obj kvs) = .error e) :
    handleMessage search st (.parsed (.obj kvs)) =
      (some (.obj kvs), some (errorResp (-32603) e (Json.get (.obj kvs) "id")),
       true) := by
  simp [handleMessage, h, exceptHandler]

/-! ## Claims -/

/-- C4: for every query, if the external provider call raises any
exception, `search_with_claude` does not propagate it (it is a total
function of the outcome) and returns the fixed marker `"Search failed: "`
followed by the exception's description. -/
theorem C4_search_failure_marker (e : String) :
    search_with_claude (.exn e) = "Search failed: " ++ e := rfl

/-- C8: for every list of provider content blocks, the adapter's result is
exactly the payloads of the text-kind blocks, in order, joined by newline;
tool-invocation blocks contribute nothing; and with no text-kind block the
adapter returns the fixed sentinel rather than an error. -/
theorem C8_join_text_blocks (blocks : List ProviderBlock) :
    search_with_claude (.ok blocks) =
      if (blocks.filterMap textPayload).isEmpty then
        "No related search results found."
      else String.intercalate "\n" (blocks.filterMap textPayload) := by
  simp only [search_with_claude, extractSearchResults_eq_filterMap]

/-- C9: every response the connection handler sends — for any incoming
message sequence, well-formed or not, and any adapter — contains exactly
one of a `result` field or an `error` field. -/
theorem C9_result_xor_error (search : Json → String) (msgs : List Msg) :
    (handle_websocket search msgs).all exclusiveResultError = true :=
  runConn_exclusive search msgs none

/-- C2: for every well-formed request envelope whose method is one of
`initialize`, `tools/list`, `tools/call`, the response the connection
handler sends carries an `id` field equal to the request's identifier
exactly as supplied — `request.get("id")`, which is `null` when the
identifier is null or absent. -/
theorem C2_id_echoed (search : Json → String) (st : Option Json)
    (kvs : List (String × Json))
    (h : (Json.get (.obj kvs) "method").eqStr "initialize" = true ∨
         (Json.get (.obj kvs) "method").eqStr "tools/list" = true ∨
         (Json.get (.obj kvs) "method").eqStr "tools/call" = true) :
    ∃ r, (handleMessage search st (.parsed (.obj kvs))).2.1 = some r ∧
      r.find? "id" = some (Json.get (.obj kvs) "id") := by
  rcases h with h | h | h <;> rw [Json.eqStr_true_iff] at h
  · have hb := buildResponse_initialize search kvs h
    exact ⟨_, by rw [handleMessage_ok search st _ _ hb],
      find?_successResp_id _ _⟩
  · have hb := buildResponse_tools_list search kvs h
    exact ⟨_, by rw [handleMessage_ok search st _ _ hb],
      find?_successResp_id _ _⟩
  · cases hp : Json.getOr (Json.obj kvs) "params" (Json.obj []) with
    | obj pkvs =>
      have hb := buildResponse_tools_call_obj search kvs pkvs h hp
      exact ⟨_, by rw [handleMessage_ok search st _ _ hb],
        find?_successResp_id _ _⟩
    | null =>
      have hb := buildResponse_tools_call_nonobj search kvs _ h hp rfl
      exact ⟨_, by rw [handleMessage_error_obj search st kvs _ hb],
        find?_errorResp_id _ _ _⟩
    | bool b =>
      have hb := buildResponse_tools_call_nonobj search kvs _ h hp rfl
      exact ⟨_, by rw [handleMessage_error_obj search st kvs _ hb],
        find?_errorResp_id _ _ _⟩
    | num n =>
      have hb := buildResponse_tools_call_nonobj search kvs _ h hp rfl
      exact ⟨_, by rw [handleMessage_error_obj search st kvs _ hb],
        find?_errorResp_id _ _ _⟩
    | str s =>
      have hb := buildResponse_tools_call_nonobj search kvs _ h hp rfl
      exact ⟨_, by rw [handleMessage_error_obj search st kvs _ hb],
        find?_errorResp_id _ _ _⟩
    | arr xs =>
      have hb := buildResponse_tools_call_nonobj search kvs _ h hp rfl
      exact ⟨_, by rw [handleMessage_error_obj search st kvs _ hb],
        find?_errorResp_id _ _ _⟩

/-- Witness for C2: a request with no `id` at all is answered with
`id = null`. -/
theorem C2_id_echoed_witness :
    ∃ r, (handleMessage (fun _ => "") none
        (.parsed (.obj [("method", .str "initialize")]))).2.1 = some r ∧
      r.find? "id" = some Json.null :=
  C2_id_echoed (fun _ => "") none [("method", .str "initialize")] (Or.inl rfl)

/-- C7: for every well-formed request envelope whose method is none of the
three recognized methods (including an absent method), the response is a
protocol-level error with code `-32601` whose message names the
unrecognized method, with the request's identifier echoed. -/
theorem C7_method_not_found (search : Json → String) (st : Option Json)
    (kvs : List (String × Json))
    (h1 : (Json.get (.obj kvs) "method").eqStr "initialize" = false)
    (h2 : (Json.get (.obj kvs) "method").eqStr "tools/list" = false)
    (h3 : (Json.get (.obj kvs) "method").eqStr "tools/call" = false) :
    ∃ r, (handleMessage search st (.parsed (.obj kvs))).2.1 = some r ∧
      r.find? "error" = some (.obj [("code", .num (-32601)),
        ("message", .str ("Method not found: " ++
          pyStr (Json.get (.obj kvs) "method")))]) ∧
      r.find? "id" = some (Json.get (.obj kvs) "id") := by
  have hb := buildResponse_unknown_method search kvs h1 h2 h3
  exact ⟨_, by rw [handleMessage_ok search st _ _ hb],
    find?_errorResp_error _ _ _, find?_errorResp_id _ _ _⟩

/-- Witness for C7: `method="not/a/real/method"` is answered with a
`-32601` error naming the method, id echoed. -/
theorem C7_method_not_found_witness :
    ∃ r, (handleMessage (fun _ => "") none
        (.parsed (.obj [("method", .str "not/a/real/method"),
          ("id", .num 1)]))).2.1 = some r ∧
      r.find? "error" = some (.obj [("code", .num (-32601)),
        ("message", .str "Method not found: not/a/real/method")]) ∧
      r.find? "id" = some (.num 1) :=
  C7_method_not_found (fun _ => "") none
    [("method", .str "not/a/real/method"), ("id", .num 1)] rfl rfl rfl

/-- C5: for every `tools/call` request whose tool name is not
`smart_web_search`, the response is a success envelope (no `error` field)
whose single text content block reads `"Unknown tool: "` followed by the
supplied name. -/
theorem C5_unknown_tool (search : Json → String) (st : Option Json)
    (kvs pkvs : List (String × Json))
    (hm : Json.get (.obj kvs) "method" = .str "tools/call")
    (hp : Json.getOr (.obj kvs) "params" (.obj []) = .obj pkvs)
    (hn : (Json.get (.obj pkvs) "name").eqStr "smart_web_search" = false) :
    ∃ r, (handleMessage search st (.parsed (.obj kvs))).2.1 = some r ∧
      r.find? "error" = none ∧
      r.find? "result" = some (.obj [("content",
        .arr [.obj [("type", .str "text"),
          ("text", .str ("Unknown tool: " ++
            pyStr (Json.get (.obj pkvs) "name")))]])]) := by
  have hct : call_tool search (Json.get (.obj pkvs) "name")
      (Json.getOr (.obj pkvs) "arguments" (.obj [])) =
      [⟨"text", "Unknown tool: " ++ pyStr (Json.get (.obj pkvs) "name")⟩] := by
    simp [call_tool, hn]
  have hb := buildResponse_tools_call_obj search kvs pkvs hm hp
  rw [hct] at hb
  simp only [List.map_cons, List.map_nil] at hb
  exact ⟨_, by rw [handleMessage_ok search st _ _ hb],
    find?_successResp_error _ _, find?_successResp_result _ _⟩

/-- Witness for C5: `name="unknown_tool"` yields a success envelope whose
text is `"Unknown tool: unknown_tool"`. -/
theorem C5_unknown_tool_witness :
    ∃ r, (handleMessage (fun _ => "") none
        (.parsed (.obj [("method", .str "tools/call"),
          ("params", .obj [("name", .str "unknown_tool")]),
          ("id", .num 2)]))).2.1 = some r ∧
      r.find? "error" = none ∧
      r.find? "result" = some (.obj [("content",
        .arr [.obj [("type", .str "text"),
          ("text", .str "Unknown tool: unknown_tool")]])]) :=
  C5_unknown_tool (fun _ => "") none
    [("method", .str "tools/call"),
     ("params", .obj [("name", .str "unknown_tool")]), ("id", .num 2)]
    [("name", .str "unknown_tool")] rfl rfl rfl

/-- C6: for every `tools/call` request naming `smart_web_search` whose
arguments are not a mapping or lack the key `"query"`, the response is a
success envelope (no `error` field) whose single text content block
describes the invalid-arguments condition — and it is the same for every
adapter `search`, so the search-provider call is never made. -/
theorem C6_invalid_arguments (search : Json → String) (st : Option Json)
    (kvs pkvs : List (String × Json))
    (hm : Json.get (.obj kvs) "method" = .str "tools/call")
    (hp : Json.getOr (.obj kvs) "params" (.obj []) = .obj pkvs)
    (hn : Json.get (.obj pkvs) "name" = .str "smart_web_search")
    (ha : (!(Json.getOr (.obj pkvs) "arguments" (.obj [])).isDict ||
           !((Json.getOr (.obj pkvs) "arguments" (.obj [])).hasKey "query"))
          = true) :
    ∃ r, (handleMessage search st (.parsed (.obj kvs))).2.1 = some r ∧
      r.find? "error" = none ∧
      r.find? "result" = some (.obj [("content",
        .arr [.obj [("type", .str "text"),
          ("text", .str ("Invalid arguments for smart_web_search: " ++
            pyStr (Json.getOr (.obj pkvs) "arguments" (.obj []))))]])]) := by
  have hct : call_tool search (Json.get (.obj pkvs) "name")
      (Json.getOr (.obj pkvs) "arguments" (.obj [])) =
      [⟨"text", "Invalid arguments for smart_web_search: " ++
        pyStr (Json.getOr (.obj pkvs) "arguments" (.obj []))⟩] := by
    rw [hn]
    simp [call_tool, Json.eqStr, ha]
  have hb := buildResponse_tools_call_obj search kvs pkvs hm hp
  rw [hct] at hb
  simp only [List.map_cons, List.map_nil] at hb
  exact ⟨_, by rw [handleMessage_ok search st _ _ hb],
    find?_successResp_error _ _, find?_successResp_result _ _⟩

/-- Witness for C6: arguments `{'q': 1}` (no `"query"` key) yield a
success envelope whose text describes the invalid arguments. -/
theorem C6_invalid_arguments_witness :
    ∃ r, (handleMessage (fun _ => "") none
        (.parsed (.obj [("method", .str "tools/call"),
          ("params", .obj [("name", .str "smart_web_search"),
            ("arguments", .obj [("q", .num 1)])]),
          ("id", .num 3)]))).2.1 = some r ∧
      r.find? "error" = none ∧
      r.find? "result" = some (.obj [("content",
        .arr [.obj [("type", .str "text"),
          ("text",
            .str "Invalid arguments for smart_web_search: \x7b'q': 1\x7d")]])]) :=
  C6_invalid_arguments (fun _ => "") none
    [("method", .str "tools/call"),
     ("params", .obj [("name", .str "smart_web_search"),
       ("arguments", .obj [("q", .num 1)])]), ("id", .num 3)]
    [("name", .str "smart_web_search"), ("arguments", .obj [("q", .num 1)])]
    rfl rfl rfl rfl

/-- C3: for every `tools/call` request naming `smart_web_search` with
valid arguments, if the provider call inside the adapter raises (the
adapter double `fun _ => search_with_claude (.exn em)` reports any
exception `em`), the response is still a success envelope (a `result`
field and no `error` field) whose content text begins with the fixed
failure marker `"Search failed: "`. -/
theorem C3_provider_raises (em : String) (st : Option Json)
    (kvs pkvs : List (String × Json))
    (hm : Json.get (.obj kvs) "method" = .str "tools/call")
    (hp : Json.getOr (.obj kvs) "params" (.obj []) = .obj pkvs)
    (hn : Json.get (.obj pkvs) "name" = .str "smart_web_search")
    (ha : (Json.getOr (.obj pkvs) "arguments" (.obj [])).isDict = true)
    (hq : (Json.getOr (.obj pkvs) "arguments" (.obj [])).hasKey "query"
          = true) :
    ∃ r, (handleMessage (fun _ => search_with_claude (.exn em)) st
        (.parsed (.obj kvs))).2.1 = some r ∧
      r.find? "error" = none ∧
      r.find? "result" = some (.obj [("content",
        .arr [.obj [("type", .str "text"),
          ("text", .str ("Search failed: " ++ em))]])]) := by
  have hct : call_tool (fun _ => search_with_claude (.exn em))
      (Json.get (.obj pkvs) "name")
      (Json.getOr (.obj pkvs) "arguments" (.obj [])) =
      [⟨"text", "Search failed: " ++ em⟩] := by
    rw [hn]
    simp [call_tool, Json.eqStr, ha, hq, search_with_claude]
  have hb := buildResponse_tools_call_obj (fun _ => search_with_claude (.exn em))
    kvs pkvs hm hp
  rw [hct] at hb
  simp only [List.map_cons, List.map_nil] at hb
  exact ⟨_, by rw [handleMessage_ok _ st _ _ hb],
    find?_successResp_error _ _, find?_successResp_result _ _⟩

/-- Witness for C3: a raising provider double with description
`"Connection error"` yields a success envelope whose text is
`"Search failed: Connection error"`. -/
theorem C3_provider_raises_witness :
    ∃ r, (handleMessage (fun _ => search_with_claude (.exn "Connection error"))
        none (.parsed (.obj [("method", .str "tools/call"),
          ("params", .obj [("name", .str "smart_web_search"),
            ("arguments", .obj [("query", .str "What is MCP protocol?")])]),
          ("id", .num 4)]))).2.1 = some r ∧
      r.find? "error" = none ∧
      r.find? "result" = some (.obj [("content",
        .arr [.obj [("type", .str "text"),
          ("text", .str "Search failed: Connection error")]])]) :=
  C3_provider_raises "Connection error" none
    [("method", .str "tools/call"),
     ("params", .obj [("name", .str "smart_web_search"),
       ("arguments", .obj [("query", .str "What is MCP protocol?")])]),
     ("id", .num 4)]
    [("name", .str "smart_web_search"),
     ("arguments", .obj [("query", .str "What is MCP protocol?")])]
    rfl rfl rfl rfl rfl

/-- C10: for every `tools/call` with tool name `smart_web_search` whose
arguments mapping contains the key `"query"`, validation succeeds and the
value under `"query"` is passed to the search call unchanged, whatever its
JSON type — the string type the input schema declares is never enforced by
the dispatcher. -/
theorem C10_query_forwarded_untyped (search : Json → String)
    (akvs : List (String × Json)) (v : Json)
    (hq : (Json.obj akvs).find? "query" = some v) :
    call_tool search (.str "smart_web_search") (.obj akvs) =
      [⟨"text", search v⟩] := by
  simp [call_tool, Json.eqStr, Json.isDict, Json.hasKey, Json.get, hq]

/-- Witness for C10: a numeric query value `7` still reaches the adapter
(here a double that renders the value it receives). -/
theorem C10_query_forwarded_untyped_witness :
    call_tool pyStr (.str "smart_web_search") (.obj [("query", .num 7)]) =
      [⟨"text", "7"⟩] :=
  C10_query_forwarded_untyped pyStr [("query", .num 7)] (.num 7) rfl

/-- C1 (code bug): a message that fails to decode as JSON arriving after
an earlier successfully decoded message produces a `-32603` error response
whose identifier is the identifier of the *previous* request (the
`request` local is still bound from the prior loop iteration), not `null`
as the specification states; the loop does continue, and a subsequent
well-formed message still receives its correct response. -/
theorem C1_stale_error_id :
    handle_websocket (fun _ => "")
        [.parsed (.obj [("jsonrpc", .str "2.0"), ("method", .str "initialize"),
           ("id", .num 5)]),
         .invalid "Expecting value: line 1 column 1 (char 0)",
         .parsed (.obj [("jsonrpc", .str "2.0"), ("method", .str "tools/list"),
           ("id", .num 7)])] =
      [successResp initializeResult (.num 5),
       errorResp (-32603) "Expecting value: line 1 column 1 (char 0)" (.num 5),
       successResp (.obj [("tools", .arr (list_tools.map Tool.dict))]) (.num 7)]
      ∧ Json.num 5 ≠ Json.null := by
  refine ⟨rfl, ?_⟩
  intro h
  cases h

end McpWebsearch
